import Mathlib

/-!
Shallow embedding of the Discord game-library cog (three revisions of
`game.py`) together with proofs checking the natural-language specification
against the code.

Revisions embedded:
* namespace `Old` — the oldest revision (`src/game.py`): module-level helper
  functions over a JSON dict `games.json` mapping user id → list of titles.
* namespace `GL`  — the `src/game-library/game.py` revision (Red `Config`).
* namespace `Lib` — the `src/gamelib/game.py` revision (Red `Config`).

Conventions of the embedding:
* Discord user ids are `Nat`; game titles are `String`.
* The persisted per-user stores (a JSON dict in `Old`, Red's `Config`
  user data in `GL`/`Lib`) are association lists `List (Nat × _)`;
  `lookupStore` is dictionary lookup, `Option` models present/absent keys.
* Python exceptions (`KeyError`, `IndexError`, `TypeError`, and the cog's
  own `MemberNotInVoiceChannelError`) are modelled with `Except PyErr`.
* Python's `sorted(...)` on strings is lexicographic (code-point order,
  case-sensitive), modelled as insertion sort with Mathlib's `String`
  linear order.  Python's `list(set(xs))` produces the distinct elements
  of `xs` in an unspecified order; it is modelled as `List.dedup`, and all
  properties about it are stated up to membership, never up to order.
-/

namespace GameCog

/-- Python exceptions raised by the embedded code paths. -/
inductive PyErr where
  | keyError
  | indexError
  | typeError
  | memberNotInVoiceChannel
deriving DecidableEq, Repr

/-- A Discord member's presence state (`user.status.name`). -/
inductive Status where
  | online
  | idle
  | dnd
  | offline
deriving DecidableEq, Repr

/-- The fields of a Discord member that the cog inspects. -/
structure Member where
  id : Nat
  isBot : Bool
  status : Status
deriving DecidableEq, Repr

/-- The slice of a command `ctx` used by the `GL`/`Lib` audience resolvers:
the guild member roster, and `ctx.author.voice` (the members of the
requester's current voice channel, or `none` when the requester is in no
voice channel). -/
structure Ctx where
  guildMembers : List Member
  authorVoice : Option (List Member)
deriving DecidableEq, Repr

/-- The recognised audience filters (`"online"` / `"voice"`). -/
inductive Choice where
  | online
  | voice
deriving DecidableEq, Repr

/-- Dictionary lookup on an association list: `d[u]` / `d.get(u)`. -/
def lookupStore {α : Type} : List (Nat × α) → Nat → Option α
  | [], _ => none
  | (v, x) :: rest, u => if v = u then some x else lookupStore rest u

/-- `user.status.name in ("idle", "online")` (the `GL`/`Lib` presence test). -/
def isOnlineOrIdle (s : Status) : Bool :=
  match s with
  | .online => true
  | .idle => true
  | _ => false

/-- The presence-mode audience: guild members that are online or idle and
not bots, in roster order (`GL.get_users` / `Lib.get_users`, "online" arm). -/
def presence_users (members : List Member) : List Nat :=
  (members.filter (fun m => isOnlineOrIdle m.status && !m.isBot)).map (·.id)

/-- The voice-mode audience: non-bot members of the requester's voice
channel (`GL.get_users` / `Lib.get_users`, "voice" arm). -/
def voice_users (members : List Member) : List Nat :=
  (members.filter (fun m => !m.isBot)).map (·.id)

/-- Python's `sorted` on a list of strings: stable ascending sort in
case-sensitive lexicographic (code-point) order. -/
def sortStrings (l : List String) : List String :=
  l.insertionSort (fun a b => a ≤ b)

/-- `sorted(list(set(g0).intersection(*rest)))` — the common-games kernel
shared verbatim by all three revisions of `get_suggestions`: the distinct
titles of the first list that occur in every remaining list, sorted. -/
def intersect_sorted (g0 : List String) (rest : List (List String)) : List String :=
  sortStrings (g0.dedup.filter (fun x => rest.all (fun l => decide (x ∈ l))))

namespace Old

/-- The `games.json` dict: user id → stored list of titles. -/
abbrev Store := List (Nat × List String)

/-- `get_games(userid)` for a non-null `userid`: `games[userid]`, raising
`KeyError` when the user has no record. -/
def get_games (store : Store) (u : Nat) : Except PyErr (List String) :=
  match lookupStore store u with
  | some gs => .ok gs
  | none => .error .keyError

/-- `game_list.get(user, [])` — the defaulting lookup used inside
`get_suggestions`: an absent user contributes an empty list. -/
def get_games_default (store : Store) (u : Nat) : List String :=
  (lookupStore store u).getD []

/-- `get_suggestions(users)` of the oldest revision: builds
`user_game_list = [game_list.get(user, []) for user in users]` and then
evaluates `set(user_game_list[0]).intersection(*user_game_list[1:])`;
the subscript `[0]` raises `IndexError` on an empty audience. -/
def get_suggestions (store : Store) : List Nat → Except PyErr (List String)
  | [] => .error .indexError
  | u :: rest =>
      .ok (intersect_sorted (get_games_default store u)
        (rest.map (get_games_default store)))

/-- The slice of the oldest revision's `ctx` used by `get_online_users`:
per-channel voice member lists and the server member roster. -/
structure ServerCtx where
  channelVoiceMembers : List (List Member)
  serverMembers : List Member
deriving DecidableEq, Repr

/-- `user.status.name == "online"` (the oldest revision's presence test;
unlike the later revisions it does not include `idle`). -/
def isOnline (s : Status) : Bool :=
  match s with
  | .online => true
  | _ => false

/-- `get_online_users(ctx)`: the non-bot members of all voice channels;
if there are none, all non-bot members whose status is exactly "online". -/
def get_online_users (ctx : ServerCtx) : List Nat :=
  let users := (ctx.channelVoiceMembers.flatten.filter (fun m => !m.isBot)).map (·.id)
  if users.isEmpty then
    (ctx.serverMembers.filter (fun m => isOnline m.status && !m.isBot)).map (·.id)
  else
    users

/-- The audience-then-intersect pipeline of the bare `game`, `suggest` and
`poll` commands: `get_suggestions(get_online_users(ctx))`. -/
def suggest_flow (ctx : ServerCtx) (store : Store) : Except PyErr (List String) :=
  get_suggestions store (get_online_users ctx)

end Old

namespace Mid

/-- Red `Config` user data as read by this revision's `get_suggestions`
(`all_user_data.get(user, {}).get("games")`): user id → stored games list;
a user with no stored library record yields Python `None` (`Option.none`). -/
abbrev Store := List (Nat × List String)

/-- `get_users(ctx, choice)` of the `game-library` revision.  With no
`choice` it goes straight to the presence roster (the source's condition
`choice is None or choice.lower == "online"` never attempts voice first).
With `choice="online"` the condition compares the *bound method*
`choice.lower` against the string `"online"`, which is always false, and
the `elif "online".lower() == "voice"` arm is also false, so `users`
stays empty.  With `choice="voice"` it raises
`MemberNotInVoiceChannelError` when the requester is in no voice channel,
and otherwise returns the non-bot members of that channel. -/
def get_users (ctx : Ctx) : Option Choice → Except PyErr (List Nat)
  | none => .ok (presence_users ctx.guildMembers)
  | some .online => .ok []
  | some .voice =>
      match ctx.authorVoice with
      | none => .error .memberNotInVoiceChannel
      | some ms => .ok (voice_users ms)

/-- `get_suggestions(users)` of the `game-library` revision: returns `None`
for an empty audience; otherwise builds
`[all_user_data.get(user, {}).get("games") for user in users]` (note: no
default, so an absent record yields `None`) and evaluates
`set(users_game_list[0]).intersection(*users_game_list[1:])`, which raises
`TypeError` as soon as any entry is `None`. -/
def get_suggestions (store : Store) (users : List Nat) :
    Except PyErr (Option (List String)) :=
  match users.map (lookupStore store) with
  | [] => .ok none
  | l0 :: rest =>
      match l0 with
      | none => .error .typeError
      | some g0 =>
          if rest.all (·.isSome) then
            .ok (some (intersect_sorted g0 (rest.map (·.getD []))))
          else .error .typeError

/-- The `poll` command's pipeline in the `game-library` revision:
`users = await self.get_users(ctx, choice)` followed immediately by
`suggestions = await self.get_suggestions(users)` — with no audience-size
check and no exception handler in between. -/
def poll_flow (ctx : Ctx) (store : Store) (choice : Option Choice) :
    Except PyErr (Option (List String)) :=
  match get_users ctx choice with
  | .error e => .error e
  | .ok users => get_suggestions store users

/-- The `steamlink` merge of the `game-library` revision:
`game_list.extend(steam_game_list)` then `games.set(game_list)` — the
incoming titles are appended to the stored list with no deduplication. -/
def steamlink_merge (current incoming : List String) : List String :=
  current ++ incoming

end Mid

namespace Lib

/-- One user's Red `Config` record in the `gamelib` revision:
`{"games": [...], "steam_id": "..."}` (registered defaults `[]` / `""`). -/
structure UserRec where
  games : List String
  steamId : String
deriving DecidableEq, Repr

/-- Red `Config` user data: user id → stored record. -/
abbrev Store := List (Nat × UserRec)

/-- Reading a user's games: `await self.config.user(user).games()` and the
`user_data.get(user, {}).get("games", [])` of `get_suggestions` agree — a
user with no stored record reads as the registered default `[]`. -/
def user_games (store : Store) (u : Nat) : List String :=
  match lookupStore store u with
  | some r => r.games
  | none => []

/-- Reading a user's Steam link: `await self.config.user(user).steam_id()`;
absent records read as the registered default `""`. -/
def user_steam_id (store : Store) (u : Nat) : String :=
  match lookupStore store u with
  | some r => r.steamId
  | none => ""

/-- `await self.config.user(user).games.set(gs)`: writes only the `games`
field of the user's record, creating the record (with default `steam_id`)
on first write. -/
def set_games : Store → Nat → List String → Store
  | [], u, gs => [(u, ⟨gs, ""⟩)]
  | (v, r) :: rest, u, gs =>
      if v = u then (v, { r with games := gs }) :: rest
      else (v, r) :: set_games rest u gs

/-- `await self.config.user(user).steam_id.set(sid)`: writes only the
`steam_id` field, creating the record (with default games `[]`) on first
write. -/
def set_steam_id : Store → Nat → String → Store
  | [], u, sid => [(u, ⟨[], sid⟩)]
  | (v, r) :: rest, u, sid =>
      if v = u then (v, { r with steamId := sid }) :: rest
      else (v, r) :: set_steam_id rest u sid

/-- The confirmed path of the `destroy` command (`_destroy`, after the
user answers "yes"): `games = await ...games(); games.clear();
await ...games.set(games)` — stores `[]` as the user's games. -/
def destroy_games (store : Store) (u : Nat) : Store :=
  set_games store u []

/-- The merge performed by `_update` and `steamsync`:
`current_games.extend(incoming)` followed by storing
`list(set(current_games))` — the deduplicated union (Python's set order is
unspecified; `List.dedup` is the canonical representative, and all claims
about it are stated up to membership). -/
def merge_games (current incoming : List String) : List String :=
  (current ++ incoming).dedup

/-- `get_users(ctx, choice)` of the `gamelib` revision for an explicit
choice: "online" filters the roster by presence, "voice" raises
`MemberNotInVoiceChannelError` when the requester is in no voice channel
and otherwise returns the non-bot members of that channel. -/
def get_users_choice (ctx : Ctx) : Choice → Except PyErr (List Nat)
  | .online => .ok (presence_users ctx.guildMembers)
  | .voice =>
      match ctx.authorVoice with
      | none => .error .memberNotInVoiceChannel
      | some ms => .ok (voice_users ms)

/-- `get_users(ctx, choice)` of the `gamelib` revision: with no choice it
tries `get_users(ctx, "voice")` and, only on
`MemberNotInVoiceChannelError`, falls back to `get_users(ctx, "online")`. -/
def get_users (ctx : Ctx) : Option Choice → Except PyErr (List Nat)
  | some c => get_users_choice ctx c
  | none =>
      match get_users_choice ctx .voice with
      | .error .memberNotInVoiceChannel => get_users_choice ctx .online
      | r => r

/-- The suggestion-building loop of the `gamelib` revision's
`get_suggestions`: each resolved user's games
(`user_data.get(user, {}).get("games", [])`), keeping only the non-empty
lists (`if games: suggestions.append(games)`). -/
def build_game_lists (store : Store) (users : List Nat) : List (List String) :=
  (users.map (user_games store)).filter (fun gs => !gs.isEmpty)

/-- `get_suggestions(ctx, choice)` of the `gamelib` revision.  Returns
Python `None` (`Option.none`) when audience resolution raises
`MemberNotInVoiceChannelError`, when the resolved audience has at most one
user, or when every resolved user's library is empty (the loop collected
no lists and the function falls off the end); otherwise returns the sorted
intersection of the collected non-empty libraries. -/
def get_suggestions (ctx : Ctx) (store : Store) (choice : Option Choice) :
    Option (List String) :=
  match get_users ctx choice with
  | .error _ => none
  | .ok users =>
      if users.length ≤ 1 then none
      else
        match build_game_lists store users with
        | [] => none
        | g0 :: rest => some (intersect_sorted g0 rest)

end Lib

end GameCog

namespace GameCog

/-- Sorting a duplicate-free list of strings yields a strictly increasing
list (sorted in case-sensitive lexicographic order, with no duplicates). -/
lemma sortStrings_pairwise_lt {l : List String} (h : l.Nodup) :
    (sortStrings l).Pairwise (· < ·) := by
  have hs : (sortStrings l).Pairwise (fun a b : String => a ≤ b) :=
    List.sorted_insertionSort _ l
  have hn : (sortStrings l).Nodup :=
    ((List.perm_insertionSort _ l).nodup_iff).mpr h
  exact (hs.and hn).imp (fun hab => lt_of_le_of_ne hab.1 hab.2)

/-- The common-games kernel always produces a strictly increasing list. -/
lemma intersect_sorted_pairwise_lt (g0 : List String) (rest : List (List String)) :
    (intersect_sorted g0 rest).Pairwise (· < ·) :=
  sortStrings_pairwise_lt ((g0.nodup_dedup).filter _)

/-- If any of the intersected lists is empty, the common-games kernel
yields the empty list. -/
lemma intersect_sorted_eq_nil_of_mem {g0 : List String} {rest : List (List String)}
    (h : [] ∈ g0 :: rest) : intersect_sorted g0 rest = [] := by
  rcases List.mem_cons.mp h with h0 | hr
  · rw [← h0]
    rfl
  · have hf : g0.dedup.filter (fun x => rest.all (fun l => decide (x ∈ l))) = [] := by
      refine List.filter_eq_nil_iff.mpr ?_
      intro x _ hall
      have := List.all_eq_true.mp hall [] hr
      simp at this
    unfold intersect_sorted
    rw [hf]
    rfl

/-- Writing a user's games stores exactly those games and leaves the
user's Steam link as it was. -/
lemma Lib.lookup_set_games (store : Lib.Store) (u : Nat) (gs : List String) :
    lookupStore (Lib.set_games store u gs) u = some ⟨gs, Lib.user_steam_id store u⟩ := by
  induction store with
  | nil => simp [Lib.set_games, lookupStore, Lib.user_steam_id]
  | cons p rest ih =>
    obtain ⟨v, r⟩ := p
    by_cases hv : v = u
    · subst hv
      simp [Lib.set_games, lookupStore, Lib.user_steam_id]
    · simp [Lib.set_games, lookupStore, hv, Lib.user_steam_id, ih]

/-- Writing a user's Steam link stores exactly that link and leaves the
user's games as they were. -/
lemma Lib.lookup_set_steam_id (store : Lib.Store) (u : Nat) (sid : String) :
    lookupStore (Lib.set_steam_id store u sid) u = some ⟨Lib.user_games store u, sid⟩ := by
  induction store with
  | nil => simp [Lib.set_steam_id, lookupStore, Lib.user_games]
  | cons p rest ih =>
    obtain ⟨v, r⟩ := p
    by_cases hv : v = u
    · subst hv
      simp [Lib.set_steam_id, lookupStore, Lib.user_games]
    · simp [Lib.set_steam_id, lookupStore, hv, Lib.user_games, ih]

/-- Claim C4, counterexample: in the oldest revision, reading the titles of
a user id for which no library record was ever written does not return an
empty set — `get_games(42)` on an empty store evaluates `games[42]` and
raises `KeyError`. -/
theorem old_unknown_user_read_fails :
    Old.get_games [] 42 = .error .keyError := rfl

/-- Claim C4, amended: in the `gamelib` revision (Red `Config` with the
registered default `games = []`), reading any user's titles — including
ids never written — returns the empty list and never fails; in the oldest
revision, `get_games(userid)` (and the `check` command's
`game_list[user.id]`) raises `KeyError` for an unknown user. -/
theorem get_titles_unknown_user :
    (∀ (store : Lib.Store) (u : Nat),
      lookupStore store u = none → Lib.user_games store u = []) ∧
    (∀ (store : Old.Store) (u : Nat),
      lookupStore store u = none → Old.get_games store u = .error .keyError) := by
  constructor
  · intro store u h
    simp [Lib.user_games, h]
  · intro store u h
    simp [Old.get_games, h]

/-- Witness for the amended C4 at concrete inputs. -/
theorem get_titles_unknown_user_witness :
    Lib.user_games [] 42 = [] ∧ Old.get_games [] 42 = .error .keyError :=
  ⟨get_titles_unknown_user.1 [] 42 rfl, get_titles_unknown_user.2 [] 42 rfl⟩

/-- Claim C6 (confirmed): whenever the common-games computation returns a
result (in the oldest revision's `get_suggestions` and in the `gamelib`
revision's `get_suggestions`), that result is strictly increasing in the
case-sensitive lexicographic string order — hence sorted with no duplicate
titles; and since both computations are pure functions of the store and
audience, two calls with the same audience over unchanged stored libraries
return identical output. -/
theorem suggestions_sorted_nodup_deterministic :
    (∀ (store : Old.Store) (users : List Nat) (l : List String),
      Old.get_suggestions store users = .ok l → l.Pairwise (· < ·)) ∧
    (∀ (ctx : Ctx) (store : Lib.Store) (choice : Option Choice) (l : List String),
      Lib.get_suggestions ctx store choice = some l → l.Pairwise (· < ·)) ∧
    (∀ (store : Old.Store) (users : List Nat),
      Old.get_suggestions store users = Old.get_suggestions store users) ∧
    (∀ (ctx : Ctx) (store : Lib.Store) (choice : Option Choice),
      Lib.get_suggestions ctx store choice = Lib.get_suggestions ctx store choice) := by
  refine ⟨?_, ?_, fun _ _ => rfl, fun _ _ _ => rfl⟩
  · intro store users l h
    cases users with
    | nil => cases h
    | cons u rest =>
      simp only [Old.get_suggestions] at h
      injection h with h
      subst h
      exact intersect_sorted_pairwise_lt _ _
  · intro ctx store choice l h
    unfold Lib.get_suggestions at h
    split at h
    · cases h
    · split at h
      · cases h
      · split at h
        · cases h
        · injection h with h
          subst h
          exact intersect_sorted_pairwise_lt _ _

/-- Witness for C6 at concrete inputs. -/
theorem suggestions_sorted_nodup_deterministic_witness :
    Old.get_suggestions [(1, ["Go", "Chess"]), (2, ["Go", "Checkers"])] [1, 2] = .ok ["Go"] ∧
    List.Pairwise (· < ·) (["Go"] : List String) :=
  ⟨rfl, suggestions_sorted_nodup_deterministic.1
    [(1, ["Go", "Chess"]), (2, ["Go", "Checkers"])] [1, 2] ["Go"] rfl⟩

/-- Claim C8 (confirmed): the confirmed path of the `gamelib` `destroy`
command empties the user's games while leaving the user's `steam_id`
unchanged; in particular, a Steam link set before the wipe is still
retrievable afterwards. -/
theorem clear_titles_preserves_link :
    (∀ (store : Lib.Store) (u : Nat),
      Lib.user_games (Lib.destroy_games store u) u = []) ∧
    (∀ (store : Lib.Store) (u : Nat),
      Lib.user_steam_id (Lib.destroy_games store u) u = Lib.user_steam_id store u) ∧
    (∀ (store : Lib.Store) (u : Nat) (sid : String),
      Lib.user_steam_id (Lib.destroy_games (Lib.set_steam_id store u sid) u) u = sid) := by
  refine ⟨?_, ?_, ?_⟩
  · intro store u
    simp [Lib.destroy_games, Lib.user_games, Lib.lookup_set_games]
  · intro store u
    simp [Lib.destroy_games, Lib.user_steam_id, Lib.lookup_set_games]
  · intro store u sid
    have h2 : Lib.user_steam_id (Lib.destroy_games (Lib.set_steam_id store u sid) u) u =
        Lib.user_steam_id (Lib.set_steam_id store u sid) u := by
      simp [Lib.destroy_games, Lib.user_steam_id, Lib.lookup_set_games]
    rw [h2]
    simp [Lib.user_steam_id, Lib.lookup_set_steam_id]

/-- Claim C9 (confirmed): in the `game-library` revision, a non-empty
audience whose first user has no stored record makes `get_suggestions`
evaluate `set(None)` — the dict chain yields `None`, not an empty list —
and raise `TypeError`. -/
theorem mid_missing_first_user_type_error :
    ∀ (store : Mid.Store) (u : Nat) (rest : List Nat),
      lookupStore store u = none →
      Mid.get_suggestions store (u :: rest) = .error .typeError := by
  intro store u rest h
  simp [Mid.get_suggestions, h]

/-- Witness for C9 at concrete inputs. -/
theorem mid_missing_first_user_type_error_witness :
    Mid.get_suggestions [] [1, 2] = .error .typeError :=
  mid_missing_first_user_type_error [] 1 [2] rfl

/-- Claim C10 (confirmed): in the oldest revision, `get_suggestions([])`
raises `IndexError` (it indexes `user_game_list[0]` unconditionally), and
`get_online_users` can return an empty list when no non-bot user is in
voice and none is online — so the bare `game`/`suggest`/`poll` pipeline
crashes instead of reporting an audience failure. -/
theorem old_empty_audience_crash :
    (∀ store : Old.Store, Old.get_suggestions store [] = .error .indexError) ∧
    Old.get_online_users
      ⟨[[⟨9, true, .online⟩]], [⟨5, false, .offline⟩, ⟨9, true, .online⟩]⟩ = [] ∧
    (∀ store : Old.Store,
      Old.suggest_flow
        ⟨[[⟨9, true, .online⟩]], [⟨5, false, .offline⟩, ⟨9, true, .online⟩]⟩ store =
        .error .indexError) :=
  ⟨fun _ => rfl, rfl, fun _ => rfl⟩

/-- Claim C1, counterexample: in the `gamelib` revision, a participant with
an empty (absent) library does not force the intersection to empty — it is
skipped by the `if games:` filter.  With the resolved audience `[1, 2]`,
user 1 owning `["Chess"]` and user 2 owning nothing, `get_suggestions`
returns `["Chess"]` rather than the empty result. -/
theorem lib_empty_library_skipped :
    Lib.get_users ⟨[⟨1, false, .online⟩, ⟨2, false, .online⟩], none⟩ none = .ok [1, 2] ∧
    Lib.user_games [(1, ⟨["Chess"], ""⟩)] 2 = [] ∧
    Lib.get_suggestions ⟨[⟨1, false, .online⟩, ⟨2, false, .online⟩], none⟩
      [(1, ⟨["Chess"], ""⟩)] none = some ["Chess"] :=
  ⟨rfl, rfl, rfl⟩

/-- Claim C1, amended: in the oldest revision's `get_suggestions`, a
participant with an empty (or absent) library does force the overall
intersection to empty; in the `gamelib` revision, participants with empty
libraries are skipped by the suggestion-building loop and do not affect
the intersection at all. -/
theorem empty_library_forces_empty_intersection :
    (∀ (store : Old.Store) (users : List Nat),
      (∃ u ∈ users, Old.get_games_default store u = []) →
      Old.get_suggestions store users = .ok []) ∧
    (∀ (store : Lib.Store) (users : List Nat) (u : Nat),
      Lib.user_games store u = [] →
      Lib.build_game_lists store (users ++ [u]) = Lib.build_game_lists store users) := by
  constructor
  · intro store users h
    obtain ⟨u, hu, hg⟩ := h
    cases users with
    | nil => cases hu
    | cons v rest =>
      have hmem : [] ∈ Old.get_games_default store v ::
          rest.map (Old.get_games_default store) := by
        rcases List.mem_cons.mp hu with h | h
        · subst h
          rw [← hg]
          exact List.mem_cons_self _ _
        · exact List.mem_cons_of_mem _ (hg ▸ List.mem_map_of_mem _ h)
      simp only [Old.get_suggestions, intersect_sorted_eq_nil_of_mem hmem]
  · intro store users u hg
    simp [Lib.build_game_lists, hg, List.filter_append]

/-- Witness for the amended C1 at concrete inputs. -/
theorem empty_library_forces_empty_intersection_witness :
    Old.get_suggestions [(1, ["Chess"])] [1, 2] = .ok [] ∧
    Lib.build_game_lists [(1, ⟨["Chess"], ""⟩)] ([1] ++ [2]) =
      Lib.build_game_lists [(1, ⟨["Chess"], ""⟩)] [1] :=
  ⟨empty_library_forces_empty_intersection.1 [(1, ["Chess"])] [1, 2] ⟨2, by decide, rfl⟩,
   empty_library_forces_empty_intersection.2 [(1, ⟨["Chess"], ""⟩)] [1] 2 rfl⟩

/-- Claim C2, counterexample: the `game-library` revision's `poll` pipeline
performs no audience-size check — with a resolved audience of exactly one
user it computes and returns that user's own library instead of failing. -/
theorem mid_poll_single_user_computes :
    Mid.get_users ⟨[⟨7, false, .online⟩], none⟩ none = .ok [7] ∧
    Mid.poll_flow ⟨[⟨7, false, .online⟩], none⟩ [(7, ["Chess"])] none =
      .ok (some ["Chess"]) :=
  ⟨rfl, rfl⟩

/-- Claim C2, amended: in the `gamelib` revision, `get_suggestions` with a
resolved audience of fewer than 2 users returns the distinct failure value
`None` before touching any library; in the `game-library` revision, `poll`
passes the resolved audience straight to `get_suggestions`, which for a
single stored user computes the intersection (the user's own deduplicated,
sorted library). -/
theorem insufficient_audience_handling :
    (∀ (ctx : Ctx) (store : Lib.Store) (choice : Option Choice) (users : List Nat),
      Lib.get_users ctx choice = .ok users → users.length ≤ 1 →
      Lib.get_suggestions ctx store choice = none) ∧
    (∀ (store : Mid.Store) (u : Nat) (gs : List String),
      lookupStore store u = some gs →
      Mid.get_suggestions store [u] = .ok (some (intersect_sorted gs []))) := by
  constructor
  · intro ctx store choice users hu hlen
    simp [Lib.get_suggestions, hu, hlen]
  · intro store u gs h
    simp [Mid.get_suggestions, h]

/-- Witness for the amended C2 at concrete inputs. -/
theorem insufficient_audience_handling_witness :
    Lib.get_suggestions ⟨[⟨1, false, .online⟩], none⟩ [] none = none ∧
    Mid.get_suggestions [(7, ["Chess"])] [7] = .ok (some (intersect_sorted ["Chess"] [])) :=
  ⟨insufficient_audience_handling.1 ⟨[⟨1, false, .online⟩], none⟩ [] none [1] rfl (by decide),
   insufficient_audience_handling.2 [(7, ["Chess"])] 7 ["Chess"] rfl⟩

/-- Claim C3, counterexample: the `game-library` revision's `steamlink`
merge appends the incoming titles without deduplication — merging
`["Chess"]` into an existing `["Chess"]` stores a duplicate, and merging
the same sequence twice does not yield the same stored list as merging it
once. -/
theorem mid_steamlink_merge_duplicates :
    Mid.steamlink_merge ["Chess"] ["Chess"] = ["Chess", "Chess"] ∧
    ¬ (Mid.steamlink_merge ["Chess"] ["Chess"]).Nodup ∧
    Mid.steamlink_merge (Mid.steamlink_merge ["Chess"] ["Chess"]) ["Chess"] ≠
      Mid.steamlink_merge ["Chess"] ["Chess"] := by
  refine ⟨rfl, ?_, ?_⟩ <;> decide

/-- Claim C3, amended: the merge used by the `gamelib` revision's `update`
and `steamsync` flows (and the `game-library` `update` flow) stores the
deduplicated set union of the existing and incoming titles — as a set of
titles it is exactly the union, contains no duplicates, and merging the
same sequence twice yields the same final set as merging it once.  The
`game-library` `steamlink` merge preserves the union membership but
appends without deduplication. -/
theorem merge_titles_dedup_union :
    (∀ (current incoming : List String) (x : String),
      x ∈ Lib.merge_games current incoming ↔ x ∈ current ∨ x ∈ incoming) ∧
    (∀ current incoming : List String, (Lib.merge_games current incoming).Nodup) ∧
    (∀ (current incoming : List String) (x : String),
      x ∈ Lib.merge_games (Lib.merge_games current incoming) incoming ↔
        x ∈ Lib.merge_games current incoming) ∧
    (∀ (current incoming : List String) (x : String),
      x ∈ Mid.steamlink_merge current incoming ↔ x ∈ current ∨ x ∈ incoming) := by
  refine ⟨?_, ?_, ?_, ?_⟩ <;> intros <;>
    simp [Lib.merge_games, Mid.steamlink_merge, List.nodup_dedup]

/-- Claim C5, counterexample: in the `game-library` revision, audience
resolution with no mode specified does not attempt Voice first — with the
requester inside a voice channel containing users 1 and 2, unspecified-mode
resolution returns the presence roster `[3]` instead of the voice audience
`[1, 2]`. -/
theorem mid_unspecified_mode_skips_voice :
    Mid.get_users ⟨[⟨3, false, .online⟩],
      some [⟨1, false, .online⟩, ⟨2, false, .online⟩]⟩ none = .ok [3] ∧
    Mid.get_users ⟨[⟨3, false, .online⟩],
      some [⟨1, false, .online⟩, ⟨2, false, .online⟩]⟩ (some .voice) = .ok [1, 2] :=
  ⟨rfl, rfl⟩

/-- Claim C5, amended: in the `gamelib` revision, unspecified-mode audience
resolution attempts Voice first, returns the voice audience when the
requester is in a voice channel, falls back to Presence exactly when the
requester is in none, and never surfaces the voice failure to the caller;
in the `game-library` revision, unspecified mode resolves directly by
Presence without ever attempting Voice. -/
theorem unspecified_mode_voice_fallback :
    (∀ (ctx : Ctx) (ms : List Member), ctx.authorVoice = some ms →
      Lib.get_users ctx none = .ok (voice_users ms)) ∧
    (∀ ctx : Ctx, ctx.authorVoice = none →
      Lib.get_users ctx none = .ok (presence_users ctx.guildMembers)) ∧
    (∀ ctx : Ctx, ∃ us, Lib.get_users ctx none = .ok us) ∧
    (∀ ctx : Ctx, Mid.get_users ctx none = .ok (presence_users ctx.guildMembers)) := by
  refine ⟨?_, ?_, ?_, fun _ => rfl⟩
  · intro ctx ms h
    simp [Lib.get_users, Lib.get_users_choice, h]
  · intro ctx h
    simp [Lib.get_users, Lib.get_users_choice, h]
  · intro ctx
    rcases hv : ctx.authorVoice with _ | ms
    · exact ⟨presence_users ctx.guildMembers,
        by simp [Lib.get_users, Lib.get_users_choice, hv]⟩
    · exact ⟨voice_users ms, by simp [Lib.get_users, Lib.get_users_choice, hv]⟩

/-- Witness for the amended C5 at concrete inputs. -/
theorem unspecified_mode_voice_fallback_witness :
    Lib.get_users ⟨[⟨3, false, .online⟩], some [⟨1, false, .online⟩]⟩ none =
      .ok (voice_users [⟨1, false, .online⟩]) ∧
    Lib.get_users ⟨[⟨3, false, .online⟩], none⟩ none =
      .ok (presence_users [⟨3, false, .online⟩]) :=
  ⟨unspecified_mode_voice_fallback.1 ⟨[⟨3, false, .online⟩], some [⟨1, false, .online⟩]⟩
      [⟨1, false, .online⟩] rfl,
   unspecified_mode_voice_fallback.2.1 ⟨[⟨3, false, .online⟩], none⟩ rfl⟩

/-- Claim C7, counterexample: in the `gamelib` revision the empty-
intersection outcome and the failed-computation outcome are conflated into
the same returned value.  A successfully resolved two-user audience in
which both libraries are empty (zero games in common) makes
`get_suggestions` return `None` — the very value it returns for the
insufficient-audience failure of a one-user audience. -/
theorem lib_all_empty_conflated_with_failure :
    Lib.get_users ⟨[⟨1, false, .online⟩, ⟨2, false, .online⟩], none⟩ none = .ok [1, 2] ∧
    Lib.get_suggestions ⟨[⟨1, false, .online⟩, ⟨2, false, .online⟩], none⟩ [] none = none ∧
    Lib.get_users ⟨[⟨1, false, .online⟩], none⟩ none = .ok [1] ∧
    Lib.get_suggestions ⟨[⟨1, false, .online⟩], none⟩ [] none = none :=
  ⟨rfl, rfl, rfl, rfl⟩

/-- Claim C7, amended: in the `gamelib` revision, when the resolved
audience has at least 2 users and at least one participant's library is
non-empty, `get_suggestions` returns a list (`some l`, possibly empty) —
distinguishable from the failure value `None`; but both the
insufficient-audience failure and the all-libraries-empty case (an empty
intersection) are returned as the same value `None`. -/
theorem empty_result_vs_failure :
    (∀ (ctx : Ctx) (store : Lib.Store) (choice : Option Choice) (users : List Nat),
      Lib.get_users ctx choice = .ok users → 1 < users.length →
      (∃ u ∈ users, Lib.user_games store u ≠ []) →
      ∃ l, Lib.get_suggestions ctx store choice = some l) ∧
    (∀ (ctx : Ctx) (store : Lib.Store) (choice : Option Choice) (users : List Nat),
      Lib.get_users ctx choice = .ok users → users.length ≤ 1 →
      Lib.get_suggestions ctx store choice = none) ∧
    (∀ (ctx : Ctx) (store : Lib.Store) (choice : Option Choice) (users : List Nat),
      Lib.get_users ctx choice = .ok users →
      (∀ u ∈ users, Lib.user_games store u = []) →
      Lib.get_suggestions ctx store choice = none) := by
  refine ⟨?_, ?_, ?_⟩
  · intro ctx store choice users hu hlen h
    obtain ⟨u, hmem, hne⟩ := h
    have hb : Lib.build_game_lists store users ≠ [] := by
      intro hnil
      have hmap : Lib.user_games store u ∈ users.map (Lib.user_games store) :=
        List.mem_map_of_mem _ hmem
      have hfil : Lib.user_games store u ∈ Lib.build_game_lists store users :=
        List.mem_filter.mpr ⟨hmap, by simp [List.isEmpty_iff, hne]⟩
      rw [hnil] at hfil
      cases hfil
    have hnot : ¬ users.length ≤ 1 := not_le.mpr hlen
    cases hbl : Lib.build_game_lists store users with
    | nil => exact absurd hbl hb
    | cons g0 rest =>
      exact ⟨intersect_sorted g0 rest, by simp [Lib.get_suggestions, hu, hnot, hbl]⟩
  · intro ctx store choice users hu hlen
    simp [Lib.get_suggestions, hu, hlen]
  · intro ctx store choice users hu hall
    have hb : Lib.build_game_lists store users = [] := by
      refine List.filter_eq_nil_iff.mpr ?_
      intro gs hgs
      obtain ⟨u, hmem, rfl⟩ := List.mem_map.mp hgs
      simp [hall u hmem]
    simp [Lib.get_suggestions, hu, hb]

/-- Witness for the amended C7 at concrete inputs. -/
theorem empty_result_vs_failure_witness :
    (∃ l, Lib.get_suggestions ⟨[⟨1, false, .online⟩, ⟨2, false, .online⟩], none⟩
      [(1, ⟨["Chess"], ""⟩)] none = some l) ∧
    Lib.get_suggestions ⟨[⟨1, false, .online⟩], none⟩ [(1, ⟨["Chess"], ""⟩)] none = none :=
  ⟨empty_result_vs_failure.1 ⟨[⟨1, false, .online⟩, ⟨2, false, .online⟩], none⟩
      [(1, ⟨["Chess"], ""⟩)] none [1, 2] rfl (by decide) ⟨1, by decide, by decide⟩,
   empty_result_vs_failure.2.1 ⟨[⟨1, false, .online⟩], none⟩
      [(1, ⟨["Chess"], ""⟩)] none [1] rfl (by decide)⟩

end GameCog
